import Mathlib

/-!
Verification of the core of the `autonomous-world-model` repository: the INT8
matmul / requantization kernels (`matmul.rs`), the selective-scan recurrence
(`ssm.rs` / `mamba2.rs`), the chunked weight-upload protocol
(`programs/upload-weights/src/lib.rs`), and the session / input / inference
state machine (`programs-ecs/systems/*`).

Machine integers are modelled as `Nat` / `Int`.  A Rust `u8` slice becomes
`List Nat` (each element is a byte value), an `i8` slice becomes `List Int`
(each element is the signed value in `[-128, 127]`), `i32`/`i64` arithmetic is
`Int` arithmetic (wraparound is never reached by the quantities the claims
touch: products of two int8 values, their sums over manifest-bounded lengths,
and small frame counters), and `Pubkey` is an opaque `Nat`.  Slice indexing
`s[k]` becomes `List.getD s k 0`; the source's bounds `assert!`s reappear as
length hypotheses of the theorems.  A fallible Solana instruction becomes a
function into `Except`: a `require!` failure aborts the transaction before any
account is stored, so an `Except.error` result carries no state — the caller's
state is unchanged by construction.
-/

namespace WorldModel

/-! ## Definitions: two's-complement byte helpers -/

/-- Arithmetic shift right on `Int` (Rust `>>` on a signed integer). -/
def sar (v : Int) (k : Nat) : Int := v >>> k

/-- Rust `.clamp(-128, 127)` on a signed integer. -/
def clampI8 (v : Int) : Int := max (-128) (min 127 v)

/-- Rust `b as i8` applied to a byte `b` (two's-complement reinterpretation). -/
def i8OfByte (b : Nat) : Int :=
  if b % 256 < 128 then ((b % 256 : Nat) : Int) else ((b % 256 : Nat) : Int) - 256

/-- The byte representation of an `i8` value (two's-complement), as read when a
`&[i8]` is reinterpreted as raw bytes by the packed-load `matmul_i8`. -/
def byteOfI8 (v : Int) : Nat := (v % 256).toNat

/-- Rust `v as i16` on an `i32` value (two's-complement wrap to 16 bits),
used by `compress_frame` for the quantized positions. -/
def wrapI16 (v : Int) : Int := (v + 32768) % 65536 - 32768

/-- Whether an instruction result is a rejection. -/
def exceptIsErr {ε α : Type} : Except ε α → Bool
  | Except.error _ => true
  | Except.ok _ => false

/-! ## Definitions: `matmul_i8` / requantization (C1, C4)

Two `matmul_i8` implementations exist in the repository:
* `programs-ecs/systems/run-inference/src/matmul.rs` — 4x unrolled inner loop
  with four separate accumulators `acc0..acc3` plus a remainder loop;
* `programs/world-model/src/matmul.rs` — packed little-endian `u32`
  `read_unaligned` loads of 4 weight bytes and 4 input bytes per step, byte
  extraction by shifting, single accumulator, plus a remainder loop.

Both are embedded per output row `i` (rows are fully independent in the
source: iteration `i` reads `weights[i*cols ..]` and `input` and writes only
`output[i]`).  `matmulSpecRow` is the specification-side definition, written
from the spec sentence "each output is the exact sum over `cols` of
`int8(weights[row][j]) * int8(input[j])`". -/

/-- Spec-side row dot product (from the spec text, for the refinement claim). -/
def matmulSpecRow (w : List Nat) (x : List Int) (cols i : Nat) : Int :=
  ∑ j ∈ Finset.range cols, i8OfByte (w.getD (i * cols + j) 0) * x.getD j 0

/-- Row `i` of `matmul_i8` from
`programs-ecs/systems/run-inference/src/matmul.rs` (4x unrolled loop:
accumulators `acc0..acc3` over `chunks = cols / 4` iterations, then
`acc_rem` over `cols % 4` trailing elements, summed at the end). -/
def matmulRowUnrolled (w : List Nat) (x : List Int) (cols i : Nat) : Int :=
  let chunks := cols / 4
  let remainder := cols % 4
  let rowOffset := i * cols
  let acc0 := ∑ j ∈ Finset.range chunks,
    i8OfByte (w.getD (rowOffset + j * 4) 0) * x.getD (j * 4) 0
  let acc1 := ∑ j ∈ Finset.range chunks,
    i8OfByte (w.getD (rowOffset + j * 4 + 1) 0) * x.getD (j * 4 + 1) 0
  let acc2 := ∑ j ∈ Finset.range chunks,
    i8OfByte (w.getD (rowOffset + j * 4 + 2) 0) * x.getD (j * 4 + 2) 0
  let acc3 := ∑ j ∈ Finset.range chunks,
    i8OfByte (w.getD (rowOffset + j * 4 + 3) 0) * x.getD (j * 4 + 3) 0
  let accRem := ∑ j ∈ Finset.range remainder,
    i8OfByte (w.getD (rowOffset + chunks * 4 + j) 0) * x.getD (chunks * 4 + j) 0
  acc0 + acc1 + acc2 + acc3 + accRem

/-- A little-endian unaligned `u32` load of four bytes
(`(ptr as *const u32).read_unaligned()` on a little-endian target). -/
def pack4 (b0 b1 b2 b3 : Nat) : Nat :=
  b0 % 256 + 256 * (b1 % 256) + 65536 * (b2 % 256) + 16777216 * (b3 % 256)

/-- Byte `k` of a `u32` value: `(v >> (8*k)) as u8`. -/
def unpackByte (v k : Nat) : Nat := v / 256 ^ k % 256

/-- Row `i` of `matmul_i8` from `programs/world-model/src/matmul.rs`
(packed loads: per chunk, a `u32` load of 4 weight bytes and 4 input bytes,
signed byte extraction, four products added into one accumulator; then the
remainder loop). -/
def matmulRowPacked (w : List Nat) (x : List Int) (cols i : Nat) : Int :=
  let chunks := cols / 4
  let remainder := cols % 4
  let rowOffset := i * cols
  let accChunks := ∑ j ∈ Finset.range chunks,
    (let w4 := pack4 (w.getD (rowOffset + j * 4) 0) (w.getD (rowOffset + j * 4 + 1) 0)
                     (w.getD (rowOffset + j * 4 + 2) 0) (w.getD (rowOffset + j * 4 + 3) 0)
     let x4 := pack4 (byteOfI8 (x.getD (j * 4) 0)) (byteOfI8 (x.getD (j * 4 + 1) 0))
                     (byteOfI8 (x.getD (j * 4 + 2) 0)) (byteOfI8 (x.getD (j * 4 + 3) 0))
     i8OfByte (unpackByte w4 0) * i8OfByte (unpackByte x4 0)
       + i8OfByte (unpackByte w4 1) * i8OfByte (unpackByte x4 1)
       + i8OfByte (unpackByte w4 2) * i8OfByte (unpackByte x4 2)
       + i8OfByte (unpackByte w4 3) * i8OfByte (unpackByte x4 3))
  let accRem := ∑ j ∈ Finset.range remainder,
    i8OfByte (w.getD (rowOffset + chunks * 4 + j) 0) * x.getD (chunks * 4 + j) 0
  accChunks + accRem

/-- `requantize_per_channel` (`matmul.rs`): element `i` is
`(((input[i] as i64) * (scales[i] as i64)) >> 16) as i32`, clamped to
`[-128, 127]`.  The `as i32` narrowing is lossless for `i32` inputs and `u16`
scales (`|v * s| < 2^31 * 2^16`, so the shifted value fits in 32 bits), so it
is omitted from the embedding. -/
def requantize_per_channel (input : List Int) (scales : List Nat) (n : Nat) : List Int :=
  (List.range n).map fun i =>
    clampI8 (sar (input.getD i 0 * ((scales.getD i 0 : Nat) : Int)) 16)

/-- `requantize_per_tensor` (`matmul.rs`): same loop body with one constant
scale factor. -/
def requantize_per_tensor (input : List Int) (scale : Nat) (n : Nat) : List Int :=
  (List.range n).map fun i =>
    clampI8 (sar (input.getD i 0 * ((scale : Nat) : Int)) 16)

/-! ## Definitions: activation LUTs and the selective scan (C2)

From `lut.rs` and `ssm.rs` (`programs/world-model`); the scan loop body in
`mamba2.rs` (`mamba2_layer_step`, step 3) is textually identical. -/

def SILU_OFFSET : Nat := 0

def SOFTPLUS_OFFSET : Nat := 256

def RSQRT_OFFSET : Nat := 512

def EXP_NEG_OFFSET : Nat := 768

def LUT_TOTAL_SIZE : Nat := 1024

/-- `exp_neg_lut`: table lookup at `EXP_NEG_OFFSET + x` in the packed 1024-byte
LUT block. -/
def exp_neg_lut (lut : List Nat) (x : Nat) : Nat := lut.getD (EXP_NEG_OFFSET + x) 0

/-- Position-derived gating value `b = clamp((x_val * (j+1)) >> 4, -128, 127)`
from the scan inner loop. -/
def bGate (xVal : Int) (j : Nat) : Int := clampI8 (sar (xVal * ((j : Int) + 1)) 4)

/-- Position-derived gating value
`c = clamp((x_val * (d_state - j)) >> 4, -128, 127)` from the scan inner loop. -/
def cGate (xVal : Int) (dState j : Nat) : Int :=
  clampI8 (sar (xVal * ((dState : Int) - (j : Int))) 4)

/-- The LUT index `dt_a = min((|dt| * |a|) >> 4, 255)` (both operands are
`i32` absolute values, so the shift is plain division). -/
def dtA (dtVal aVal : Int) : Nat := min (dtVal.natAbs * aVal.natAbs / 16) 255

/-- `a_bar = exp_neg_lut(lut_data, dt_a) as i32` (a byte value used as a
non-negative `i32`). -/
def aBarOf (lut : List Nat) (dtVal aVal : Int) : Int :=
  ((exp_neg_lut lut (dtA dtVal aVal) : Nat) : Int)

/-- The un-clamped updated hidden value
`h_new = (a_bar * h + dt * b) >> 8` of the scan inner loop.  Note the source
accumulates `y_acc += c * h_new` with this un-clamped value, while storing the
clamped value back into `h`. -/
def hNewRaw (aBar hVal dtVal bVal : Int) : Int := sar (aBar * hVal + dtVal * bVal) 8

/-- Output `y_ssm[i]` of one channel of `selective_scan_step`:
`clamp((Σ_j c_j * h_new_j) >> 8, -128, 127)`. -/
def scanChannelY (lut : List Nat) (xVal dtVal aVal : Int) (hRow : List Int)
    (dState : Nat) : Int :=
  clampI8 (sar (∑ j ∈ Finset.range dState,
    cGate xVal dState j * hNewRaw (aBarOf lut dtVal aVal) (hRow.getD j 0) dtVal (bGate xVal j)) 8)

/-- Updated hidden-state row of one channel of `selective_scan_step`:
`h[i*d_state+j] := clamp(h_new_j, -128, 127)` for `j < d_state`. -/
def scanChannelH (lut : List Nat) (xVal dtVal aVal : Int) (hRow : List Int)
    (dState : Nat) : List Int :=
  (List.range dState).map fun j =>
    clampI8 (hNewRaw (aBarOf lut dtVal aVal) (hRow.getD j 0) dtVal (bGate xVal j))

/-- The `y_ssm` output of `selective_scan_step` (`ssm.rs`): channel `i` reads
`x_ssm[i]`, `dt[i]`, `a_log[i] as i8` and the hidden-state sub-range
`h[i*d_state .. (i+1)*d_state]`; channels are independent. -/
def selective_scan_step_y (xSsm dt h : List Int) (aLog lut : List Nat)
    (dInner dState : Nat) : List Int :=
  (List.range dInner).map fun i =>
    scanChannelY lut (xSsm.getD i 0) (dt.getD i 0) (i8OfByte (aLog.getD i 0))
      ((h.drop (i * dState)).take dState) dState

/-- The updated hidden state of `selective_scan_step` (`ssm.rs`), channel-major
concatenation of the per-channel rows. -/
def selective_scan_step_h (xSsm dt h : List Int) (aLog lut : List Nat)
    (dInner dState : Nat) : List Int :=
  ((List.range dInner).map fun i =>
    scanChannelH lut (xSsm.getD i 0) (dt.getD i 0) (i8OfByte (aLog.getD i 0))
      ((h.drop (i * dState)).take dState) dState).flatten

/-! ## Definitions: weight-upload protocol (C5, C6, C10)

From `programs/upload-weights/src/lib.rs`.  The `WeightShardAccount` header
fields plus the raw data region that follows them in the account are modelled
together in `Shard`; `create_shard` allocates the account zero-filled with
`data_size` bytes after the header.  The account-relative `write_offset =
header_size + offset` cancels against the same header offset on the data
region, so the embedding indexes the data region directly by `offset`.
SHA-256 is an external collaborator (a Solana syscall wrapper); `finalizeShard`
takes the hash function as an explicit parameter `H`. -/

def MAX_CHUNK_SIZE : Nat := 1000

structure Shard where
  shardIndex : Nat
  dataSize : Nat
  authority : Nat
  finalized : Bool
  dataHash : List Nat
  bytesWritten : Nat
  data : List Nat
deriving DecidableEq

inductive UploadError where
  | Unauthorized
  | ShardFinalized
  | ChunkOutOfBounds
  | ChunkTooLarge
  | IncompleteUpload
  | HashMismatch
deriving DecidableEq

/-- `create_shard`: header fields initialised, data region zero-allocated. -/
def createShard (authority shardIndex dataSize : Nat) : Shard :=
  { shardIndex := shardIndex
    dataSize := dataSize
    authority := authority
    finalized := false
    dataHash := List.replicate 32 0
    bytesWritten := 0
    data := List.replicate dataSize 0 }

/-- `account_data[offset .. offset + bytes.len()].copy_from_slice(&bytes)`. -/
def writeBytes (d : List Nat) (offset : Nat) (bytes : List Nat) : List Nat :=
  d.take offset ++ bytes ++ d.drop (offset + bytes.length)

/-- `upload_chunk`: authority check, finalized check, bounds check against the
declared size, chunk-size check, bounds check against the account data length,
then the copy and the high-water-mark update
`bytes_written := max(bytes_written, offset + bytes.len())`. -/
def uploadChunk (caller : Nat) (shard : Shard) (offset : Nat) (bytes : List Nat) :
    Except UploadError Shard :=
  if caller ≠ shard.authority then Except.error UploadError.Unauthorized
  else if shard.finalized then Except.error UploadError.ShardFinalized
  else if ¬ offset + bytes.length ≤ shard.dataSize then
    Except.error UploadError.ChunkOutOfBounds
  else if ¬ bytes.length ≤ MAX_CHUNK_SIZE then Except.error UploadError.ChunkTooLarge
  else if ¬ offset + bytes.length ≤ shard.data.length then
    Except.error UploadError.ChunkOutOfBounds
  else Except.ok { shard with
    data := writeBytes shard.data offset bytes
    bytesWritten := max shard.bytesWritten (offset + bytes.length) }

/-- `finalize_shard`: authority check, finalized check, completeness check
`bytes_written >= data_size`, then hash of `data[0 .. data_size]` compared
against `expected_hash`; on success the hash is stored and the shard is marked
finalized. -/
def finalizeShard (H : List Nat → List Nat) (caller : Nat) (shard : Shard)
    (expectedHash : List Nat) : Except UploadError Shard :=
  if caller ≠ shard.authority then Except.error UploadError.Unauthorized
  else if shard.finalized then Except.error UploadError.ShardFinalized
  else if ¬ shard.dataSize ≤ shard.bytesWritten then
    Except.error UploadError.IncompleteUpload
  else if H (shard.data.take shard.dataSize) ≠ expectedHash then
    Except.error UploadError.HashMismatch
  else Except.ok { shard with dataHash := expectedHash, finalized := true }

/-- The successor state of a successful `finalize_shard`. -/
def finalizedShard (s : Shard) (expectedHash : List Nat) : Shard :=
  { s with dataHash := expectedHash, finalized := true }

/-! ## Definitions: ECS components and the session state machine (C3, C7, C8, C9)

Components from `programs-ecs/components/*`; systems from
`programs-ecs/systems/{session-lifecycle, submit-input, run-inference}`. -/

def STATUS_CREATED : Nat := 0

def STATUS_WAITING_PLAYERS : Nat := 1

def STATUS_ACTIVE : Nat := 2

def STATUS_ENDED : Nat := 3

def ACTION_CREATE : Nat := 0

def ACTION_JOIN : Nat := 1

def ACTION_END : Nat := 2

def RING_BUFFER_SIZE : Nat := 256

structure ControllerInput where
  stickX : Int
  stickY : Int
  cStickX : Int
  cStickY : Int
  triggerL : Nat
  triggerR : Nat
  buttons : Nat
  buttonsExt : Nat
deriving DecidableEq

structure PlayerState where
  x : Int
  y : Int
  percent : Nat
  shieldStrength : Nat
  speedAirX : Int
  speedY : Int
  speedGroundX : Int
  speedAttackX : Int
  speedAttackY : Int
  stateAge : Nat
  hitlag : Nat
  stocks : Nat
  facing : Nat
  onGround : Nat
  actionState : Nat
  jumpsLeft : Nat
  character : Nat
deriving DecidableEq

/-- `PlayerState::default()`: every field zero. -/
def defaultPlayerState : PlayerState :=
  { x := 0, y := 0, percent := 0, shieldStrength := 0, speedAirX := 0, speedY := 0,
    speedGroundX := 0, speedAttackX := 0, speedAttackY := 0, stateAge := 0, hitlag := 0,
    stocks := 0, facing := 0, onGround := 0, actionState := 0, jumpsLeft := 0, character := 0 }

structure SessionState where
  status : Nat
  frame : Nat
  maxFrames : Nat
  player1 : Nat
  player2 : Nat
  stage : Nat
  players : PlayerState × PlayerState
  model : Nat
  createdAt : Int
  lastUpdate : Int
  seed : Nat
deriving DecidableEq

structure InputBuffer where
  frame : Nat
  player1 : ControllerInput
  player2 : ControllerInput
  p1Ready : Bool
  p2Ready : Bool
deriving DecidableEq

/-- `FrameLog` component header plus — as `ringData` — the raw ring-buffer
bytes held in the account's remaining space after the header.  The run-inference
system of the captured source only updates the header metadata; the write of
the compressed frame into this region is an explicit production TODO in the
source ("For now, just update metadata"), so no embedded operation touches
`ringData`. -/
structure FrameLog where
  writeIndex : Nat
  totalFrames : Nat
  session : Nat
  ringData : List Nat
deriving DecidableEq

structure HiddenState where
  numLayers : Nat
  dInner : Nat
  dState : Nat
  dataSize : Nat
  frame : Nat
  initialized : Bool
deriving DecidableEq

structure GameState where
  session : SessionState
  hidden : HiddenState
  inputBuffer : InputBuffer
  frameLog : FrameLog
deriving DecidableEq

structure CompressedFrame where
  frame : Nat
  p1X : Int
  p1Y : Int
  p1Percent : Nat
  p1ActionState : Nat
  p1StateAge : Nat
  p1Stocks : Nat
  p1Facing : Nat
  p1OnGround : Nat
  p1SpeedX : Int
  p1SpeedY : Int
  p2X : Int
  p2Y : Int
  p2Percent : Nat
  p2ActionState : Nat
  p2Stocks : Nat
  p2StateAge : Nat
  p2Facing : Nat
  p2OnGround : Nat
  p2SpeedX : Int
  p2SpeedY : Int
  p1InputPacked : Nat
  p2InputPacked : Nat
  stage : Nat
deriving DecidableEq

/-- `pack_input`: `stick_x<<24 | stick_y<<16 | c_stick_x<<8 | buttons` with the
stick bytes taken as `u8` reinterpretations of the `i8` values (the four byte
lanes are disjoint, so the bitwise-or is plain addition). -/
def packInput (input : ControllerInput) : Nat :=
  byteOfI8 input.stickX * 16777216 + byteOfI8 input.stickY * 65536
    + byteOfI8 input.cStickX * 256 + input.buttons % 256

/-- `compress_frame` from `run-inference/src/lib.rs` (the snapshot value that
the captured source computes and then discards — see `runInference`).
Rust `i32 / 256` and `i16 / 4` truncate toward zero, hence `Int.tdiv`. -/
def compressFrame (frame : Nat) (players : PlayerState × PlayerState) (stage : Nat)
    (input : InputBuffer) : CompressedFrame :=
  let p1 := players.1
  let p2 := players.2
  { frame := frame
    p1X := wrapI16 (Int.tdiv p1.x 256), p1Y := wrapI16 (Int.tdiv p1.y 256)
    p1Percent := p1.percent, p1ActionState := p1.actionState
    p1StateAge := min p1.stateAge 255, p1Stocks := p1.stocks
    p1Facing := p1.facing, p1OnGround := p1.onGround
    p1SpeedX := clampI8 (Int.tdiv p1.speedGroundX 4), p1SpeedY := clampI8 (Int.tdiv p1.speedY 4)
    p2X := wrapI16 (Int.tdiv p2.x 256), p2Y := wrapI16 (Int.tdiv p2.y 256)
    p2Percent := p2.percent, p2ActionState := p2.actionState
    p2StateAge := min p2.stateAge 255, p2Stocks := p2.stocks
    p2Facing := p2.facing, p2OnGround := p2.onGround
    p2SpeedX := clampI8 (Int.tdiv p2.speedGroundX 4), p2SpeedY := clampI8 (Int.tdiv p2.speedY 4)
    p1InputPacked := packInput input.player1, p2InputPacked := packInput input.player2
    stage := stage }

inductive InferenceError where
  | SessionNotActive
  | InputsNotReady
deriving DecidableEq

/-- The per-player stub-physics body of `run_inference::execute` (the loop over
`player_idx`), applied to one player's state with that player's input. -/
def stepPlayer (input : ControllerInput) (p : PlayerState) : PlayerState :=
  let stickX := input.stickX
  let stickY := input.stickY
  let p := { p with x := p.x + stickX * 2, y := p.y + stickY * 2 }
  let p : PlayerState :=
    if p.onGround = 0 then
      let sy := p.speedY - 4
      let y := p.y + sy
      if y ≤ 0 then { p with y := 0, speedY := 0, onGround := 1 }
      else { p with y := y, speedY := sy }
    else p
  let p : PlayerState :=
    if input.buttons % 2 ≠ 0 ∧ 0 < p.jumpsLeft then
      { p with speedY := 40, onGround := 0, jumpsLeft := p.jumpsLeft - 1 }
    else p
  let p : PlayerState :=
    if stickX > 10 then { p with facing := 1 }
    else if stickX < -10 then { p with facing := 0 }
    else p
  { p with
    speedGroundX := max (-32767) (min 32767 (stickX * 2))
    stateAge := min (p.stateAge + 1) 65535 }

/-- `run_inference::execute`: requires `status == Active` and both ready flags;
on success applies the stub physics to both players, sets `session.frame` and
`hidden.frame` to `frame + 1`, and updates the frame-log metadata
(`write_index := (write_index % 256 + 1) % 256`, `total_frames := frame`).
The compressed snapshot `logEntry` is computed but — exactly as in the captured
source, where the ring-buffer write is a commented-out production TODO — never
stored: `ringData` and the ready flags are left untouched. -/
def runInference (g : GameState) : Except InferenceError GameState :=
  if g.session.status = STATUS_ACTIVE then
    if g.inputBuffer.p1Ready && g.inputBuffer.p2Ready then
      let frame := g.session.frame + 1
      let p1 := stepPlayer g.inputBuffer.player1 g.session.players.1
      let p2 := stepPlayer g.inputBuffer.player2 g.session.players.2
      let session := { g.session with frame := frame, players := (p1, p2) }
      let hidden := { g.hidden with frame := frame }
      let logEntry := compressFrame frame (p1, p2) session.stage g.inputBuffer
      let writeIdx := g.frameLog.writeIndex % RING_BUFFER_SIZE
      let frameLog := { g.frameLog with
        writeIndex := (writeIdx + 1) % RING_BUFFER_SIZE
        totalFrames := frame }
      Except.ok { g with session := session, hidden := hidden, frameLog := frameLog }
    else Except.error InferenceError.InputsNotReady
  else Except.error InferenceError.SessionNotActive

/-- `n` successive `run_inference` calls (each feeding the state produced by
the previous successful call). -/
def runInferenceN : Nat → GameState → Except InferenceError GameState
  | 0, g => Except.ok g
  | Nat.succ n, g => Except.bind (runInferenceN n g) runInference

inductive LifecycleError where
  | InvalidAction
  | InvalidStateTransition
  | CannotJoinOwnSession
deriving DecidableEq

structure LifecycleArgs where
  action : Nat
  player : Nat
  character : Nat
  stage : Nat
  model : Nat
  maxFrames : Nat
  seed : Nat
  dInner : Nat
  dState : Nat
  numLayers : Nat
deriving DecidableEq

/-- `create_session`: valid only from the initial status; initialises the
session (player 1, stage, model, seed, player-1 default state with 4 stocks),
the hidden-state dimensions, and the frame log counters. -/
def createSession (args : LifecycleArgs) (session : SessionState) (hidden : HiddenState)
    (frameLog : FrameLog) : Except LifecycleError (SessionState × HiddenState × FrameLog) :=
  if session.status = STATUS_CREATED ∨ session.status = 0 then
    Except.ok
      ({ session with
          status := STATUS_WAITING_PLAYERS
          frame := 0
          maxFrames := args.maxFrames
          player1 := args.player
          player2 := 0
          stage := args.stage
          model := args.model
          seed := args.seed
          players := ({ defaultPlayerState with character := args.character, stocks := 4 },
                      session.players.2) },
       { hidden with
          numLayers := args.numLayers
          dInner := args.dInner
          dState := args.dState
          dataSize := args.numLayers * args.dInner * args.dState
          frame := 0
          initialized := false },
       { frameLog with writeIndex := 0, totalFrames := 0 })
  else Except.error LifecycleError.InvalidStateTransition

/-- `join_session`: valid only from `WaitingPlayers`; the joining key must
differ from player 1's; sets player 2, both starting positions, and activates
the session. -/
def joinSession (args : LifecycleArgs) (session : SessionState) :
    Except LifecycleError SessionState :=
  if session.status = STATUS_WAITING_PLAYERS then
    if args.player ≠ session.player1 then
      let session := { session with
        player2 := args.player
        players := (session.players.1,
                    { defaultPlayerState with character := args.character, stocks := 4 }) }
      let p1 := { session.players.1 with
        x := -30 * 256, y := 0, facing := 1, onGround := 1, jumpsLeft := 2,
        shieldStrength := 60 * 256 }
      let p2 := { session.players.2 with
        x := 30 * 256, y := 0, facing := 0, onGround := 1, jumpsLeft := 2,
        shieldStrength := 60 * 256 }
      Except.ok { session with players := (p1, p2), status := STATUS_ACTIVE }
    else Except.error LifecycleError.CannotJoinOwnSession
  else Except.error LifecycleError.InvalidStateTransition

/-- `end_session`: valid from `Active` or `WaitingPlayers`; transitions to
`Ended`.  Note the source performs no check of the caller's identity — the
`args.player` field is ignored by this action. -/
def endSession (session : SessionState) : Except LifecycleError SessionState :=
  if session.status = STATUS_ACTIVE ∨ session.status = STATUS_WAITING_PLAYERS then
    Except.ok { session with status := STATUS_ENDED }
  else Except.error LifecycleError.InvalidStateTransition

/-- `session_lifecycle::execute`: dispatch on the action code; the components
are stored back only when the action succeeds (an error propagates before the
stores). -/
def lifecycleExecute (args : LifecycleArgs) (session : SessionState) (hidden : HiddenState)
    (frameLog : FrameLog) : Except LifecycleError (SessionState × HiddenState × FrameLog) :=
  if args.action = ACTION_CREATE then createSession args session hidden frameLog
  else if args.action = ACTION_JOIN then
    Except.map (fun s => (s, hidden, frameLog)) (joinSession args session)
  else if args.action = ACTION_END then
    Except.map (fun s => (s, hidden, frameLog)) (endSession session)
  else Except.error LifecycleError.InvalidAction

inductive InputError where
  | SessionNotActive
  | UnauthorizedPlayer
deriving DecidableEq

structure SubmitArgs where
  player : Nat
  stickX : Int
  stickY : Int
  cStickX : Int
  cStickY : Int
  triggerL : Nat
  triggerR : Nat
  buttons : Nat
  buttonsExt : Nat
deriving DecidableEq

/-- The `ControllerInput` value built from `submit_input`'s arguments. -/
def controllerOfArgs (args : SubmitArgs) : ControllerInput :=
  { stickX := args.stickX, stickY := args.stickY, cStickX := args.cStickX,
    cStickY := args.cStickY, triggerL := args.triggerL, triggerR := args.triggerR,
    buttons := args.buttons, buttonsExt := args.buttonsExt }

/-- `submit_input::execute`: requires an `Active` session and a registered
player; writes the submitter's controller sample and sets the submitter's ready
flag; then, if the buffer's pending frame differs from `session.frame + 1`,
resets the frame number and clears the *other* player's ready flag. -/
def submitInput (args : SubmitArgs) (session : SessionState) (buf : InputBuffer) :
    Except InputError InputBuffer :=
  if session.status = STATUS_ACTIVE then
    if args.player = session.player1 ∨ args.player = session.player2 then
      let controller := controllerOfArgs args
      let buf1 :=
        if args.player = session.player1 then
          { buf with player1 := controller, p1Ready := true }
        else { buf with player2 := controller, p2Ready := true }
      let expectedFrame := session.frame + 1
      let buf2 :=
        if buf1.frame ≠ expectedFrame then
          if args.player = session.player1 then
            { buf1 with frame := expectedFrame, p2Ready := false }
          else { buf1 with frame := expectedFrame, p1Ready := false }
        else buf1
      Except.ok buf2
    else Except.error InputError.UnauthorizedPlayer
  else Except.error InputError.SessionNotActive

/-! ## Definitions: concrete example states -/

def controllerNeutral : ControllerInput :=
  { stickX := 0, stickY := 0, cStickX := 0, cStickY := 0, triggerL := 0, triggerR := 0,
    buttons := 0, buttonsExt := 0 }

def playerGrounded : PlayerState :=
  { defaultPlayerState with stocks := 4, onGround := 1, jumpsLeft := 2 }

/-- A freshly joined session, just before the first frame: `Active`, frame 0,
players 1 and 2 registered. -/
def sessionReady : SessionState :=
  { status := STATUS_ACTIVE, frame := 0, maxFrames := 0, player1 := 1, player2 := 2,
    stage := 31, players := (playerGrounded, playerGrounded), model := 5, createdAt := 0,
    lastUpdate := 0, seed := 42 }

/-- A full game state in which both players have submitted inputs for frame 1:
both ready flags set, all counters at their fresh-session values. -/
def gReady : GameState :=
  { session := sessionReady
    hidden := { numLayers := 12, dInner := 1024, dState := 16, dataSize := 196608,
                frame := 0, initialized := false }
    inputBuffer := { frame := 1, player1 := controllerNeutral, player2 := controllerNeutral,
                     p1Ready := true, p2Ready := true }
    frameLog := { writeIndex := 0, totalFrames := 0, session := 9,
                  ringData := List.replicate 16 0 } }

/-- A lifecycle END request signed by key `999`, which is neither of
`sessionReady`'s registered players. -/
def argsEnd999 : LifecycleArgs :=
  { action := ACTION_END, player := 999, character := 0, stage := 0, model := 0,
    maxFrames := 0, seed := 0, dInner := 0, dState := 0, numLayers := 0 }

/-- A submit-input request by player 1 of `sessionReady`. -/
def subArgsP1 : SubmitArgs :=
  { player := 1, stickX := 30, stickY := -5, cStickX := 0, cStickY := 0, triggerL := 0,
    triggerR := 0, buttons := 1, buttonsExt := 0 }

/-- An input buffer whose pending frame number (9) is stale relative to
`sessionReady.frame + 1 = 1`, with player 2 marked ready. -/
def bufStale : InputBuffer :=
  { frame := 9, player1 := controllerNeutral, player2 := controllerNeutral,
    p1Ready := false, p2Ready := true }

/-- The shard obtained by uploading chunk `[9, 9]` at offset 1 into a fresh
4-byte shard owned by authority `7`. -/
def sChunk : Shard :=
  { shardIndex := 0, dataSize := 4, authority := 7, finalized := false,
    dataHash := List.replicate 32 0, bytesWritten := 3, data := [0, 9, 9, 0] }

/-- A fully written, not yet finalized 2-byte shard owned by authority `7`. -/
def sFull : Shard :=
  { shardIndex := 0, dataSize := 2, authority := 7, finalized := false,
    dataHash := List.replicate 32 0, bytesWritten := 2, data := [5, 6] }

/-! ## Theorems -/

lemma sar_eq_ediv (v : Int) (k : Nat) : sar v k = v / (2 ^ k : Nat) :=
  Int.shiftRight_eq_div_pow v k

lemma sar_zero (k : Nat) : sar 0 k = 0 := by
  rw [sar_eq_ediv]; simp

lemma clampI8_zero : clampI8 0 = 0 := by decide

lemma i8OfByte_mod (b : Nat) : i8OfByte (b % 256) = i8OfByte b := by
  have h : b % 256 % 256 = b % 256 := by omega
  unfold i8OfByte
  rw [h]

lemma i8OfByte_byteOfI8 (v : Int) (h1 : -128 ≤ v) (h2 : v ≤ 127) :
    i8OfByte (byteOfI8 v) = v := by
  unfold i8OfByte byteOfI8
  split <;> omega

/-- Every `getD` access into a list of int8 values stays in `[-128, 127]`
(out-of-range indices produce the default `0`, which is also in range). -/
lemma getD_i8_range (x : List Int) (hx : ∀ v ∈ x, -128 ≤ v ∧ v ≤ 127) (k : Nat) :
    -128 ≤ x.getD k 0 ∧ x.getD k 0 ≤ 127 := by
  rcases Nat.lt_or_ge k x.length with h | h
  · rw [List.getD_eq_getElem?_getD, List.getElem?_eq_getElem h]
    exact hx _ (List.getElem_mem h)
  · rw [List.getD_eq_default _ _ h]
    exact ⟨by norm_num, by norm_num⟩

lemma getD_map_range {α : Type} (f : Nat → α) (n i : Nat) (d : α) (h : i < n) :
    ((List.range n).map f).getD i d = f i := by
  rw [List.getD_eq_getElem?_getD, List.getElem?_map, List.getElem?_range h]
  rfl

lemma unpackByte_pack4_0 (b0 b1 b2 b3 : Nat) :
    unpackByte (pack4 b0 b1 b2 b3) 0 = b0 % 256 := by
  unfold unpackByte pack4; omega

lemma unpackByte_pack4_1 (b0 b1 b2 b3 : Nat) :
    unpackByte (pack4 b0 b1 b2 b3) 1 = b1 % 256 := by
  unfold unpackByte pack4
  have h0 : b0 % 256 < 256 := Nat.mod_lt _ (by norm_num)
  have h1 : b1 % 256 < 256 := Nat.mod_lt _ (by norm_num)
  have h2 : b2 % 256 < 256 := Nat.mod_lt _ (by norm_num)
  have h3 : b3 % 256 < 256 := Nat.mod_lt _ (by norm_num)
  omega

lemma unpackByte_pack4_2 (b0 b1 b2 b3 : Nat) :
    unpackByte (pack4 b0 b1 b2 b3) 2 = b2 % 256 := by
  unfold unpackByte pack4
  have h0 : b0 % 256 < 256 := Nat.mod_lt _ (by norm_num)
  have h1 : b1 % 256 < 256 := Nat.mod_lt _ (by norm_num)
  have h2 : b2 % 256 < 256 := Nat.mod_lt _ (by norm_num)
  have h3 : b3 % 256 < 256 := Nat.mod_lt _ (by norm_num)
  omega

lemma unpackByte_pack4_3 (b0 b1 b2 b3 : Nat) :
    unpackByte (pack4 b0 b1 b2 b3) 3 = b3 % 256 := by
  unfold unpackByte pack4
  have h0 : b0 % 256 < 256 := Nat.mod_lt _ (by norm_num)
  have h1 : b1 % 256 < 256 := Nat.mod_lt _ (by norm_num)
  have h2 : b2 % 256 < 256 := Nat.mod_lt _ (by norm_num)
  have h3 : b3 % 256 < 256 := Nat.mod_lt _ (by norm_num)
  omega

/-- Regroup a sum over `c * 4` indices into `c` groups of four consecutive
indices (the shape shared by the unrolled and packed chunk loops). -/
lemma sum_range_mul_four (f : Nat → Int) (c : Nat) :
    ∑ j ∈ Finset.range (c * 4), f j
      = ∑ j ∈ Finset.range c, (f (j * 4) + f (j * 4 + 1) + f (j * 4 + 2) + f (j * 4 + 3)) := by
  induction c with
  | zero => simp
  | succ n ih =>
      rw [Nat.succ_mul, Finset.sum_range_add, ih, Finset.sum_range_succ]
      simp [Finset.sum_range_succ]

/-- C1: for every weight buffer of length at least `rows * cols` and input
vector of length at least `cols`, both `matmul_i8` implementations (the 4x
unrolled one and the packed-`u32`-load one) produce, for each row `i < rows`,
exactly the specified dot product
`∑ j < cols, int8(weights[i*cols+j]) * int8(input[j])` — in particular the two
implementations are bit-identical on all such inputs. -/
theorem matmul_i8_unrolled_packed_spec
    (w : List Nat) (x : List Int) (rows cols i : Nat)
    (hw : rows * cols ≤ w.length) (hx : cols ≤ x.length)
    (hwb : ∀ b ∈ w, b < 256) (hxb : ∀ v ∈ x, -128 ≤ v ∧ v ≤ 127)
    (hi : i < rows) :
    matmulRowUnrolled w x cols i = matmulSpecRow w x cols i
      ∧ matmulRowPacked w x cols i = matmulSpecRow w x cols i
      ∧ matmulRowUnrolled w x cols i = matmulRowPacked w x cols i := by
  have hsplit : matmulSpecRow w x cols i
      = (∑ j ∈ Finset.range (cols / 4),
          (i8OfByte (w.getD (i * cols + j * 4) 0) * x.getD (j * 4) 0
            + i8OfByte (w.getD (i * cols + (j * 4 + 1)) 0) * x.getD (j * 4 + 1) 0
            + i8OfByte (w.getD (i * cols + (j * 4 + 2)) 0) * x.getD (j * 4 + 2) 0
            + i8OfByte (w.getD (i * cols + (j * 4 + 3)) 0) * x.getD (j * 4 + 3) 0))
        + ∑ j ∈ Finset.range (cols % 4),
            i8OfByte (w.getD (i * cols + (cols / 4 * 4 + j)) 0) * x.getD (cols / 4 * 4 + j) 0 := by
    unfold matmulSpecRow
    have hR : Finset.range cols = Finset.range (cols / 4 * 4 + cols % 4) := by
      congr 1
      omega
    rw [hR, Finset.sum_range_add, sum_range_mul_four]
  have hunrolled : matmulRowUnrolled w x cols i = matmulSpecRow w x cols i := by
    rw [hsplit]
    simp only [matmulRowUnrolled]
    rw [Finset.sum_add_distrib, Finset.sum_add_distrib, Finset.sum_add_distrib]
    simp only [show ∀ a b : Nat, i * cols + (a + b) = i * cols + a + b from fun a b => by omega]
  have hpacked : matmulRowPacked w x cols i = matmulSpecRow w x cols i := by
    rw [hsplit]
    simp only [matmulRowPacked]
    congr 1
    · apply Finset.sum_congr rfl
      intro j _
      simp only [unpackByte_pack4_0, unpackByte_pack4_1, unpackByte_pack4_2, unpackByte_pack4_3,
        i8OfByte_mod]
      have hx0 := getD_i8_range x hxb (j * 4)
      have hx1 := getD_i8_range x hxb (j * 4 + 1)
      have hx2 := getD_i8_range x hxb (j * 4 + 2)
      have hx3 := getD_i8_range x hxb (j * 4 + 3)
      rw [i8OfByte_byteOfI8 _ hx0.1 hx0.2, i8OfByte_byteOfI8 _ hx1.1 hx1.2,
        i8OfByte_byteOfI8 _ hx2.1 hx2.2, i8OfByte_byteOfI8 _ hx3.1 hx3.2]
      simp only [show ∀ a b : Nat, i * cols + (a + b) = i * cols + a + b from fun a b => by omega]
    · apply Finset.sum_congr rfl
      intro j _
      simp only [show ∀ a b : Nat, i * cols + (a + b) = i * cols + a + b from fun a b => by omega]
  exact ⟨hunrolled, hpacked, hunrolled.trans hpacked.symm⟩

/-- Witness for `matmul_i8_unrolled_packed_spec`: a concrete 2-row, 6-column
instance (6 columns exercise both the chunk loop and the remainder loop),
including a negative weight byte (`255 = -1` as int8) and negative inputs. -/
theorem matmul_i8_unrolled_packed_spec_witness :
    (2 * 6 ≤ ([1, 255, 3, 4, 5, 6, 7, 8, 9, 10, 11, 12] : List Nat).length)
    ∧ (6 ≤ ([5, -6, 7, -8, 9, -10] : List Int).length)
    ∧ (∀ b ∈ ([1, 255, 3, 4, 5, 6, 7, 8, 9, 10, 11, 12] : List Nat), b < 256)
    ∧ (∀ v ∈ ([5, -6, 7, -8, 9, -10] : List Int), -128 ≤ v ∧ v ≤ 127)
    ∧ (1 < 2)
    ∧ (matmulRowUnrolled [1, 255, 3, 4, 5, 6, 7, 8, 9, 10, 11, 12] [5, -6, 7, -8, 9, -10] 6 1
        = matmulSpecRow [1, 255, 3, 4, 5, 6, 7, 8, 9, 10, 11, 12] [5, -6, 7, -8, 9, -10] 6 1
      ∧ matmulRowPacked [1, 255, 3, 4, 5, 6, 7, 8, 9, 10, 11, 12] [5, -6, 7, -8, 9, -10] 6 1
        = matmulSpecRow [1, 255, 3, 4, 5, 6, 7, 8, 9, 10, 11, 12] [5, -6, 7, -8, 9, -10] 6 1
      ∧ matmulRowUnrolled [1, 255, 3, 4, 5, 6, 7, 8, 9, 10, 11, 12] [5, -6, 7, -8, 9, -10] 6 1
        = matmulRowPacked [1, 255, 3, 4, 5, 6, 7, 8, 9, 10, 11, 12] [5, -6, 7, -8, 9, -10] 6 1) :=
  ⟨by decide, by decide, by decide, by decide, by decide,
    matmul_i8_unrolled_packed_spec _ _ 2 6 1 (by decide) (by decide) (by decide) (by decide)
      (by decide)⟩

lemma getD_replicate (m a s : Nat) (h : a < m) : (List.replicate m s).getD a 0 = s := by
  rw [List.getD_eq_getElem?_getD, List.getElem?_replicate]
  simp [h]

/-- C4: each requantized element is the widened product arithmetically
right-shifted by 16 and saturated to `[-128, 127]` (the shift value is an
integer, so rounding it toward zero is the identity); the claim's concrete
saturation example holds; and the per-tensor variant agrees everywhere with
the per-channel variant applied to a constant scale vector. -/
theorem requantize_formula
    (input : List Int) (scales : List Nat) (n i : Nat)
    (hlen1 : n ≤ input.length) (hlen2 : n ≤ scales.length)
    (hv : ∀ v ∈ input, -(2 ^ 31) ≤ v ∧ v < 2 ^ 31) (hs : ∀ s ∈ scales, s < 65536)
    (hi : i < n) :
    (requantize_per_channel input scales n).getD i 0
        = clampI8 (sar (input.getD i 0 * ((scales.getD i 0 : Nat) : Int)) 16)
    ∧ requantize_per_channel [1000, -2000] [32768, 16384] 2 = [127, -128]
    ∧ ∀ (inp : List Int) (s m : Nat),
        requantize_per_tensor inp s m = requantize_per_channel inp (List.replicate m s) m := by
  refine ⟨getD_map_range _ _ _ _ hi, by decide, ?_⟩
  intro inp s m
  unfold requantize_per_tensor requantize_per_channel
  apply List.map_congr_left
  intro a ha
  rw [getD_replicate m a s (List.mem_range.mp ha)]

/-- Witness for `requantize_formula` at the claim's own example input. -/
theorem requantize_formula_witness :
    (2 ≤ ([1000, -2000] : List Int).length)
    ∧ (2 ≤ ([32768, 16384] : List Nat).length)
    ∧ (∀ v ∈ ([1000, -2000] : List Int), -(2 ^ 31) ≤ v ∧ v < 2 ^ 31)
    ∧ (∀ s ∈ ([32768, 16384] : List Nat), s < 65536)
    ∧ (0 < 2)
    ∧ ((requantize_per_channel [1000, -2000] [32768, 16384] 2).getD 0 0
          = clampI8 (sar (([1000, -2000] : List Int).getD 0 0
              * ((([32768, 16384] : List Nat).getD 0 0 : Nat) : Int)) 16)
      ∧ requantize_per_channel [1000, -2000] [32768, 16384] 2 = [127, -128]
      ∧ ∀ (inp : List Int) (s m : Nat),
          requantize_per_tensor inp s m = requantize_per_channel inp (List.replicate m s) m) :=
  ⟨by decide, by decide, by decide, by decide, by decide,
    requantize_formula [1000, -2000] [32768, 16384] 2 0 (by decide) (by decide) (by decide)
      (by decide) (by decide)⟩

lemma bGate_zero (j : Nat) : bGate 0 j = 0 := by
  simp [bGate, sar_zero, clampI8_zero]

lemma cGate_zero (dState j : Nat) : cGate 0 dState j = 0 := by
  simp [cGate, sar_zero, clampI8_zero]

lemma scanChannelY_zero (lut : List Nat) (dtVal aVal : Int) (hRow : List Int) (dState : Nat) :
    scanChannelY lut 0 dtVal aVal hRow dState = 0 := by
  simp [scanChannelY, cGate_zero, sar_zero, clampI8_zero]

/-- C2: in a selective-scan step, a channel whose input `x[i]` is zero outputs
`y[i] = 0` whatever the hidden state, `dt`, `a` and LUT contents are (both
gates `b` and `c` collapse to zero), while the channel's hidden row still
undergoes the pure `a_bar` decay `h := clamp((a_bar * h) >> 8)`; and there is
an input with nonzero `x` and all-zero initial hidden state whose output is
nonzero on some channel. -/
theorem selective_scan_zero_channel
    (xSsm dt h : List Int) (aLog lut : List Nat) (dInner dState i : Nat)
    (hi : i < dInner) (hx : xSsm.getD i 0 = 0) :
    (selective_scan_step_y xSsm dt h aLog lut dInner dState).getD i 0 = 0
    ∧ scanChannelH lut (xSsm.getD i 0) (dt.getD i 0) (i8OfByte (aLog.getD i 0))
        ((h.drop (i * dState)).take dState) dState
      = (List.range dState).map (fun j =>
          clampI8 (sar (aBarOf lut (dt.getD i 0) (i8OfByte (aLog.getD i 0))
            * ((h.drop (i * dState)).take dState).getD j 0) 8))
    ∧ ∃ (x2 dt2 : List Int) (a2 lut2 : List Nat) (dI dS k : Nat),
        k < dI ∧ x2.getD k 0 ≠ 0 ∧
        (selective_scan_step_y x2 dt2 (List.replicate (dI * dS) 0) a2 lut2 dI dS).getD k 0 ≠ 0 := by
  refine ⟨?_, ?_, [127], [127], [0], [], 1, 16, 0, by decide, by decide, by decide⟩
  · unfold selective_scan_step_y
    rw [getD_map_range _ _ _ _ hi, hx, scanChannelY_zero]
  · rw [hx]
    unfold scanChannelH
    apply List.map_congr_left
    intro j _
    simp [hNewRaw, bGate_zero]

/-- Witness for `selective_scan_zero_channel` at a concrete two-channel state
with nonzero hidden contents and nonzero `dt`/`a`. -/
theorem selective_scan_zero_channel_witness :
    (0 < 2)
    ∧ (([0, 5] : List Int).getD 0 0 = 0)
    ∧ ((selective_scan_step_y [0, 5] [7, 9] [5, -5, 6, -6] [16, 16] [] 2 2).getD 0 0 = 0
      ∧ scanChannelH [] (([0, 5] : List Int).getD 0 0) (([7, 9] : List Int).getD 0 0)
          (i8OfByte (([16, 16] : List Nat).getD 0 0))
          ((([5, -5, 6, -6] : List Int).drop (0 * 2)).take 2) 2
        = (List.range 2).map (fun j =>
            clampI8 (sar (aBarOf [] (([7, 9] : List Int).getD 0 0)
              (i8OfByte (([16, 16] : List Nat).getD 0 0))
              * ((([5, -5, 6, -6] : List Int).drop (0 * 2)).take 2).getD j 0) 8))
      ∧ ∃ (x2 dt2 : List Int) (a2 lut2 : List Nat) (dI dS k : Nat),
          k < dI ∧ x2.getD k 0 ≠ 0 ∧
          (selective_scan_step_y x2 dt2 (List.replicate (dI * dS) 0) a2 lut2 dI dS).getD k 0 ≠ 0) :=
  ⟨by decide, by decide,
    selective_scan_zero_channel [0, 5] [7, 9] [5, -5, 6, -6] [16, 16] [] 2 2 0
      (by decide) (by decide)⟩

lemma length_writeBytes (d bs : List Nat) (off : Nat) (h : off + bs.length ≤ d.length) :
    (writeBytes d off bs).length = d.length := by
  unfold writeBytes
  simp only [List.length_append, List.length_take, List.length_drop]
  omega

lemma take_writeBytes (d bs : List Nat) (off : Nat) (h : off ≤ d.length) :
    (writeBytes d off bs).take off = d.take off := by
  unfold writeBytes
  have hA : (d.take off).length = off := by
    simp only [List.length_take]
    omega
  rw [List.take_append_of_le_length (by rw [List.length_append, hA]; omega),
    List.take_append_of_le_length (by rw [hA]), List.take_take, min_self]

lemma drop_writeBytes (d bs : List Nat) (off : Nat) (h : off ≤ d.length) :
    (writeBytes d off bs).drop (off + bs.length) = d.drop (off + bs.length) := by
  unfold writeBytes
  have hAB : (d.take off ++ bs).length = off + bs.length := by
    simp only [List.length_append, List.length_take]
    omega
  exact List.drop_left' hAB

/-- Overwriting the same offset with the same bytes a second time reproduces
the data region byte for byte. -/
lemma writeBytes_idem (d bs : List Nat) (off : Nat) (h : off + bs.length ≤ d.length) :
    writeBytes (writeBytes d off bs) off bs = writeBytes d off bs := by
  have h1 := take_writeBytes d bs off (by omega)
  have h2 := drop_writeBytes d bs off (by omega)
  calc writeBytes (writeBytes d off bs) off bs
      = (writeBytes d off bs).take off ++ bs ++ (writeBytes d off bs).drop (off + bs.length) :=
        rfl
    _ = d.take off ++ bs ++ d.drop (off + bs.length) := by rw [h1, h2]
    _ = writeBytes d off bs := rfl

/-- Success characterization of `upload_chunk`: when the caller is the
authority, the shard is not finalized, the chunk is in bounds and within the
size limit, the chunk is copied and the high-water mark updated. -/
lemma uploadChunk_ok (caller : Nat) (s : Shard) (off : Nat) (bytes : List Nat)
    (hc1 : caller = s.authority) (hc2 : s.finalized = false)
    (hc3 : off + bytes.length ≤ s.dataSize) (hc4 : bytes.length ≤ MAX_CHUNK_SIZE)
    (hc5 : off + bytes.length ≤ s.data.length) :
    uploadChunk caller s off bytes = Except.ok { s with
      data := writeBytes s.data off bytes
      bytesWritten := max s.bytesWritten (off + bytes.length) } := by
  unfold uploadChunk
  rw [if_neg (not_not_intro hc1), if_neg (by simp [hc2]), if_neg (not_not_intro hc3),
    if_neg (not_not_intro hc4), if_neg (not_not_intro hc5)]

/-- C6: `upload_chunk` is idempotent — if a chunk write succeeds, re-sending
the identical offset and bytes succeeds again and returns the very same shard
state (same data region, same high-water mark, all other fields unchanged). -/
theorem upload_chunk_idempotent
    (caller : Nat) (s : Shard) (off : Nat) (bytes : List Nat) (s1 : Shard)
    (h1 : uploadChunk caller s off bytes = Except.ok s1) :
    uploadChunk caller s1 off bytes = Except.ok s1 := by
  unfold uploadChunk at h1
  split_ifs at h1 with hc1 hc2 hc3 hc4 hc5
  injection h1 with h1
  rw [← h1]
  have hc1' : caller = s.authority := not_not.mp hc1
  have hc2' : s.finalized = false := by
    revert hc2
    cases s.finalized <;> simp
  have hc3' : off + bytes.length ≤ s.dataSize := hc3
  have hc4' : bytes.length ≤ MAX_CHUNK_SIZE := hc4
  have hc5' : off + bytes.length ≤ s.data.length := hc5
  have hlen : (writeBytes s.data off bytes).length = s.data.length :=
    length_writeBytes s.data bytes off hc5'
  rw [uploadChunk_ok caller
    { s with data := writeBytes s.data off bytes
             bytesWritten := max s.bytesWritten (off + bytes.length) }
    off bytes hc1' hc2' hc3' hc4' (by rw [show ({ s with
      data := writeBytes s.data off bytes
      bytesWritten := max s.bytesWritten (off + bytes.length) } : Shard).data.length
        = (writeBytes s.data off bytes).length from rfl, hlen]; exact hc5')]
  show Except.ok ({ s with
      data := writeBytes (writeBytes s.data off bytes) off bytes
      bytesWritten := max (max s.bytesWritten (off + bytes.length)) (off + bytes.length) } : Shard)
    = _
  have hmax : max (max s.bytesWritten (off + bytes.length)) (off + bytes.length)
      = max s.bytesWritten (off + bytes.length) := by omega
  rw [writeBytes_idem s.data bytes off hc5', hmax]

/-- Witness for `upload_chunk_idempotent`: writing `[9, 9]` at offset 1 of a
fresh 4-byte shard twice returns the same state `sChunk` both times. -/
theorem upload_chunk_idempotent_witness :
    uploadChunk 7 (createShard 7 0 4) 1 [9, 9] = Except.ok sChunk
    ∧ uploadChunk 7 sChunk 1 [9, 9] = Except.ok sChunk :=
  ⟨by rfl, upload_chunk_idempotent 7 (createShard 7 0 4) 1 [9, 9] sChunk (by rfl)⟩

/-- Any `finalize_shard` call against a finalized shard, by a non-authority, or
on an incompletely written shard is rejected. -/
lemma finalizeShard_isErr_of (H2 : List Nat → List Nat) (c2 : Nat) (s2 : Shard) (e2 : List Nat)
    (h : s2.finalized = true ∨ c2 ≠ s2.authority ∨ s2.bytesWritten < s2.dataSize) :
    exceptIsErr (finalizeShard H2 c2 s2 e2) = true := by
  unfold finalizeShard
  by_cases hc : c2 ≠ s2.authority
  · rw [if_pos hc]
    rfl
  · rw [if_neg hc]
    rcases h with hf | hca | hbw
    · rw [if_pos hf]
      rfl
    · exact absurd hca hc
    · by_cases hf2 : s2.finalized = true
      · rw [if_pos hf2]
        rfl
      · rw [if_neg hf2, if_pos (by omega)]
        rfl

/-- Success characterization of `finalize_shard`. -/
lemma finalizeShard_ok (H : List Nat → List Nat) (caller : Nat) (s : Shard) (exp : List Nat)
    (hauth : caller = s.authority) (hfin : s.finalized = false)
    (hfull : s.dataSize ≤ s.bytesWritten) (hhash : H (s.data.take s.dataSize) = exp) :
    finalizeShard H caller s exp = Except.ok (finalizedShard s exp) := by
  unfold finalizeShard
  rw [if_neg (not_not_intro hauth), if_neg (by simp [hfin]),
    if_neg (not_not_intro hfull), if_neg (not_not_intro hhash)]
  rfl

/-- A second `finalize_shard` by the authority on a finalized shard yields
exactly `ShardFinalized`. -/
lemma finalizeShard_of_finalized (H2 : List Nat → List Nat) (c2 : Nat) (s2 : Shard)
    (e2 : List Nat) (hauth2 : c2 = s2.authority) (hf : s2.finalized = true) :
    finalizeShard H2 c2 s2 e2 = Except.error UploadError.ShardFinalized := by
  unfold finalizeShard
  rw [if_neg (not_not_intro hauth2), if_pos hf]

/-- Any `upload_chunk` on a finalized shard is rejected. -/
lemma uploadChunk_isErr_of_finalized (c2 : Nat) (s2 : Shard) (off : Nat) (bs : List Nat)
    (hf : s2.finalized = true) : exceptIsErr (uploadChunk c2 s2 off bs) = true := by
  unfold uploadChunk
  by_cases hc : c2 ≠ s2.authority
  · rw [if_pos hc]
    rfl
  · rw [if_neg hc, if_pos hf]
    rfl

/-- C5: `finalize_shard` is rejected whenever the shard is already finalized,
the caller is not the authority, or the high-water mark is below the declared
size; with the preconditions met, a mismatched hash yields `HashMismatch`
(leaving the shard untouched — a rejected instruction stores nothing); a
matching hash succeeds, stores the hash and sets `finalized`, after which any
further `finalize_shard` and any `upload_chunk` (by any caller) is rejected. -/
theorem finalize_shard_protocol
    (H : List Nat → List Nat) (caller : Nat) (s : Shard) (exp : List Nat)
    (hauth : caller = s.authority) (hfin : s.finalized = false)
    (hfull : s.dataSize ≤ s.bytesWritten) :
    (H (s.data.take s.dataSize) ≠ exp →
        finalizeShard H caller s exp = Except.error UploadError.HashMismatch)
    ∧ (H (s.data.take s.dataSize) = exp →
        finalizeShard H caller s exp = Except.ok (finalizedShard s exp)
        ∧ (∀ e2, finalizeShard H caller (finalizedShard s exp) e2
            = Except.error UploadError.ShardFinalized)
        ∧ (∀ (c2 off : Nat) (bs : List Nat),
            exceptIsErr (uploadChunk c2 (finalizedShard s exp) off bs) = true))
    ∧ (∀ (H2 : List Nat → List Nat) (c2 : Nat) (s2 : Shard) (e2 : List Nat),
        s2.finalized = true ∨ c2 ≠ s2.authority ∨ s2.bytesWritten < s2.dataSize →
        exceptIsErr (finalizeShard H2 c2 s2 e2) = true) := by
  refine ⟨?_, ?_, fun H2 c2 s2 e2 h => finalizeShard_isErr_of H2 c2 s2 e2 h⟩
  · intro hne
    unfold finalizeShard
    rw [if_neg (not_not_intro hauth), if_neg (by simp [hfin]),
      if_neg (not_not_intro hfull), if_pos hne]
  · intro heq
    refine ⟨?_,
      fun e2 => finalizeShard_of_finalized H caller (finalizedShard s exp) e2 hauth rfl,
      fun c2 off bs => uploadChunk_isErr_of_finalized c2 (finalizedShard s exp) off bs rfl⟩
    unfold finalizeShard
    rw [if_neg (not_not_intro hauth), if_neg (by simp [hfin]),
      if_neg (not_not_intro hfull), if_neg (not_not_intro heq)]
    rfl

/-- Witness for `finalize_shard_protocol`: the identity hash function on the
fully written shard `sFull`, with both the matching and a mismatched expected
hash. -/
theorem finalize_shard_protocol_witness :
    (7 = sFull.authority) ∧ (sFull.finalized = false) ∧ (sFull.dataSize ≤ sFull.bytesWritten)
    ∧ (finalizeShard (fun l => l) 7 sFull [9, 9] = Except.error UploadError.HashMismatch)
    ∧ (finalizeShard (fun l => l) 7 sFull [5, 6] = Except.ok (finalizedShard sFull [5, 6]))
    ∧ (finalizeShard (fun l => l) 7 (finalizedShard sFull [5, 6]) [5, 6]
        = Except.error UploadError.ShardFinalized)
    ∧ (exceptIsErr (uploadChunk 7 (finalizedShard sFull [5, 6]) 0 [1]) = true)
    ∧ (exceptIsErr (finalizeShard (fun l => l) 8 sFull [5, 6]) = true) := by
  have h := finalize_shard_protocol (fun l => l) 7 sFull [5, 6] (by decide) (by decide) (by decide)
  refine ⟨by decide, by decide, by decide, ?_, (h.2.1 (by decide)).1,
    (h.2.1 (by decide)).2.1 [5, 6], (h.2.1 (by decide)).2.2 7 0 [1],
    h.2.2 (fun l => l) 8 sFull [5, 6] (by decide)⟩
  exact (finalize_shard_protocol (fun l => l) 7 sFull [9, 9] (by decide) (by decide)
    (by decide)).1 (by decide)

/-- C10: finalize completeness is judged only by the high-water mark.  A single
chunk of length `L` written at offset `N - L` of a fresh shard of declared size
`N` drives `bytes_written` to `N`, so `finalize_shard`'s incompleteness check
passes and a finalize whose expected hash matches the hash of the full
(zero elsewhere) declared range succeeds, even though bytes `0 .. N - L` were
never written by any chunk and are still zero. -/
theorem finalize_highwater_only
    (H : List Nat → List Nat) (authority idx N L : Nat) (bytes : List Nat)
    (hlen : bytes.length = L) (hpos : 0 < L) (hLN : L ≤ N) (hmax : L ≤ MAX_CHUNK_SIZE) :
    ∃ s1, uploadChunk authority (createShard authority idx N) (N - L) bytes = Except.ok s1
      ∧ s1.bytesWritten = N
      ∧ s1.data.take (N - L) = List.replicate (N - L) 0
      ∧ (finalizeShard H authority s1 (H (s1.data.take s1.dataSize))).isOk = true := by
  have hdl : (createShard authority idx N).data.length = N := by
    simp [createShard]
  have hok := uploadChunk_ok authority (createShard authority idx N) (N - L) bytes
    (by rfl) (by rfl) (by show N - L + bytes.length ≤ N; omega) (by omega)
    (by rw [hdl]; omega)
  refine ⟨{ shardIndex := idx, dataSize := N, authority := authority, finalized := false,
            dataHash := List.replicate 32 0, bytesWritten := max 0 (N - L + bytes.length),
            data := writeBytes (List.replicate N 0) (N - L) bytes }, hok, ?_, ?_, ?_⟩
  · show max 0 (N - L + bytes.length) = N
    omega
  · show (writeBytes (List.replicate N 0) (N - L) bytes).take (N - L) = _
    rw [take_writeBytes _ _ _ (by simp only [List.length_replicate]; omega)]
    rw [List.take_replicate]
    congr 1
    omega
  · rw [finalizeShard_ok _ _ _ _ (by rfl) (by rfl)
      (by show N ≤ max 0 (N - L + bytes.length); omega) rfl]
    rfl

/-- Witness for `finalize_highwater_only`: a 4-byte shard, one 2-byte chunk at
offset 2, an arbitrary (identity) hash function. -/
theorem finalize_highwater_only_witness :
    (([9, 9] : List Nat).length = 2) ∧ (0 < 2) ∧ (2 ≤ 4) ∧ (2 ≤ MAX_CHUNK_SIZE)
    ∧ ∃ s1, uploadChunk 7 (createShard 7 0 4) 2 [9, 9] = Except.ok s1
      ∧ s1.bytesWritten = 4
      ∧ s1.data.take 2 = List.replicate 2 0
      ∧ (finalizeShard (fun l => l) 7 s1 (s1.data.take s1.dataSize)).isOk = true :=
  ⟨by decide, by decide, by decide, by decide,
    finalize_highwater_only (fun l => l) 7 0 4 2 [9, 9] (by decide) (by decide) (by decide)
      (by decide)⟩

/-- C3 (code evaluation at the failing input): from a state in which both
players are ready, `run_inference` succeeds — and, because the source neither
clears the ready flags nor checks the input buffer's frame number, the result
still has both flags set and an immediate second `run_inference` is accepted
rather than rejected with a readiness failure. -/
theorem run_inference_repeat_accepted :
    ∃ g1, runInference gReady = Except.ok g1
      ∧ g1.inputBuffer.p1Ready = true ∧ g1.inputBuffer.p2Ready = true
      ∧ (runInference g1).isOk = true := by
  refine ⟨_, rfl, rfl, rfl, rfl⟩

/-- C7 counterexample: a close (END) request signed by key `999`, which is not
one of the two registered players of the `Active` session, is not rejected —
it succeeds and moves the session to `Ended`, contradicting the claim that
such a close fails without mutating the session. -/
theorem end_session_no_caller_check :
    (argsEnd999.player ≠ sessionReady.player1 ∧ argsEnd999.player ≠ sessionReady.player2)
    ∧ lifecycleExecute argsEnd999 sessionReady gReady.hidden gReady.frameLog
        = Except.ok ({ sessionReady with status := STATUS_ENDED }, gReady.hidden,
            gReady.frameLog) :=
  ⟨by decide, by rfl⟩

/-- C7 (amended): close succeeds from `Active` or `WaitingPlayers` regardless
of the caller (the source checks no identity for the END action), transitioning
the session to `Ended`; and no operation mutates a session whose status is
`Ended` — every lifecycle action, `submit_input`, and `run_inference` on an
`Ended` session is rejected. -/
theorem close_any_caller_ended_terminal
    (args : LifecycleArgs) (s : SessionState) (hid : HiddenState) (fl : FrameLog)
    (ha : args.action = ACTION_END)
    (hs : s.status = STATUS_ACTIVE ∨ s.status = STATUS_WAITING_PLAYERS) :
    lifecycleExecute args s hid fl = Except.ok ({ s with status := STATUS_ENDED }, hid, fl)
    ∧ (∀ (args2 : LifecycleArgs) (s2 : SessionState) (h2 : HiddenState) (f2 : FrameLog),
        s2.status = STATUS_ENDED → exceptIsErr (lifecycleExecute args2 s2 h2 f2) = true)
    ∧ (∀ (a3 : SubmitArgs) (s3 : SessionState) (b3 : InputBuffer),
        s3.status = STATUS_ENDED → exceptIsErr (submitInput a3 s3 b3) = true)
    ∧ (∀ g : GameState, g.session.status = STATUS_ENDED →
        exceptIsErr (runInference g) = true) := by
  refine ⟨?_, ?_, ?_, ?_⟩
  · unfold lifecycleExecute
    rw [if_neg (by rw [ha]; decide), if_neg (by rw [ha]; decide), if_pos ha]
    unfold endSession
    rw [if_pos hs]
    rfl
  · intro args2 s2 h2 f2 hend
    unfold lifecycleExecute
    by_cases h0 : args2.action = ACTION_CREATE
    · rw [if_pos h0]
      unfold createSession
      rw [if_neg (by rw [hend]; decide)]
      rfl
    · rw [if_neg h0]
      by_cases hj : args2.action = ACTION_JOIN
      · rw [if_pos hj]
        unfold joinSession
        rw [if_neg (by rw [hend]; decide)]
        rfl
      · rw [if_neg hj]
        by_cases he : args2.action = ACTION_END
        · rw [if_pos he]
          unfold endSession
          rw [if_neg (by rw [hend]; decide)]
          rfl
        · rw [if_neg he]
          rfl
  · intro a3 s3 b3 hend
    unfold submitInput
    rw [if_neg (by rw [hend]; decide)]
    rfl
  · intro g hend
    unfold runInference
    rw [if_neg (by rw [hend]; decide)]
    rfl

/-- Witness for `close_any_caller_ended_terminal`: the unauthorized END
request `argsEnd999` against the concrete `Active` session. -/
theorem close_any_caller_ended_terminal_witness :
    (argsEnd999.action = ACTION_END)
    ∧ (sessionReady.status = STATUS_ACTIVE ∨ sessionReady.status = STATUS_WAITING_PLAYERS)
    ∧ (lifecycleExecute argsEnd999 sessionReady gReady.hidden gReady.frameLog
        = Except.ok ({ sessionReady with status := STATUS_ENDED }, gReady.hidden,
            gReady.frameLog)
      ∧ (∀ (args2 : LifecycleArgs) (s2 : SessionState) (h2 : HiddenState) (f2 : FrameLog),
          s2.status = STATUS_ENDED → exceptIsErr (lifecycleExecute args2 s2 h2 f2) = true)
      ∧ (∀ (a3 : SubmitArgs) (s3 : SessionState) (b3 : InputBuffer),
          s3.status = STATUS_ENDED → exceptIsErr (submitInput a3 s3 b3) = true)
      ∧ (∀ g : GameState, g.session.status = STATUS_ENDED →
          exceptIsErr (runInference g) = true)) :=
  ⟨by decide, by decide,
    close_any_caller_ended_terminal argsEnd999 sessionReady gReady.hidden gReady.frameLog
      (by decide) (by decide)⟩

/-- C8: a `submit_input` by a registered player of an `Active` session stores
that player's controller sample and sets that player's ready flag; when the
buffer's pending frame number differs from `session.frame + 1` the frame number
is reset to `session.frame + 1` and only the *other* player's ready flag is
cleared (the submitter's fresh flag and sample survive the reset); when the
pending frame number already equals `session.frame + 1`, the other player's
ready flag and the frame number are left unchanged. -/
theorem submit_input_frame_reset
    (args : SubmitArgs) (session : SessionState) (buf : InputBuffer)
    (hs : session.status = STATUS_ACTIVE)
    (hreg : args.player = session.player1 ∨ args.player = session.player2) :
    ∃ out, submitInput args session buf = Except.ok out ∧
      (if args.player = session.player1 then
        out.player1 = controllerOfArgs args ∧ out.p1Ready = true
        ∧ (buf.frame ≠ session.frame + 1 →
            out.frame = session.frame + 1 ∧ out.p2Ready = false)
        ∧ (buf.frame = session.frame + 1 →
            out.frame = buf.frame ∧ out.p2Ready = buf.p2Ready)
      else
        out.player2 = controllerOfArgs args ∧ out.p2Ready = true
        ∧ (buf.frame ≠ session.frame + 1 →
            out.frame = session.frame + 1 ∧ out.p1Ready = false)
        ∧ (buf.frame = session.frame + 1 →
            out.frame = buf.frame ∧ out.p1Ready = buf.p1Ready)) := by
  by_cases hp : args.player = session.player1
  · by_cases hf : buf.frame = session.frame + 1
    · simp [submitInput, hs, hreg, hp, hf]
    · simp [submitInput, hs, hreg, hp, hf]
  · have hp2 : args.player = session.player2 := hreg.resolve_left hp
    have hne : session.player2 ≠ session.player1 := fun he => hp (hp2.trans he)
    by_cases hf : buf.frame = session.frame + 1
    · simp [submitInput, hs, hreg, hp, hp2, hne, hf]
    · simp [submitInput, hs, hreg, hp, hp2, hne, hf]

/-- Witness for `submit_input_frame_reset`: player 1 submits into a buffer
whose pending frame (9) is stale for `sessionReady.frame + 1 = 1`; the frame is
reset and player 2's ready flag is cleared. -/
theorem submit_input_frame_reset_witness :
    (sessionReady.status = STATUS_ACTIVE)
    ∧ (subArgsP1.player = sessionReady.player1 ∨ subArgsP1.player = sessionReady.player2)
    ∧ ∃ out, submitInput subArgsP1 sessionReady bufStale = Except.ok out ∧
      (if subArgsP1.player = sessionReady.player1 then
        out.player1 = controllerOfArgs subArgsP1 ∧ out.p1Ready = true
        ∧ (bufStale.frame ≠ sessionReady.frame + 1 →
            out.frame = sessionReady.frame + 1 ∧ out.p2Ready = false)
        ∧ (bufStale.frame = sessionReady.frame + 1 →
            out.frame = bufStale.frame ∧ out.p2Ready = bufStale.p2Ready)
      else
        out.player2 = controllerOfArgs subArgsP1 ∧ out.p2Ready = true
        ∧ (bufStale.frame ≠ sessionReady.frame + 1 →
            out.frame = sessionReady.frame + 1 ∧ out.p1Ready = false)
        ∧ (bufStale.frame = sessionReady.frame + 1 →
            out.frame = bufStale.frame ∧ out.p1Ready = bufStale.p1Ready)) :=
  ⟨by decide, by decide,
    submit_input_frame_reset subArgsP1 sessionReady bufStale (by decide) (by decide)⟩

/-- Single-step effect of a successful `run_inference` on the counters: the
frame advances by one, the hidden-state frame tag follows it, `total_frames`
is set to the new frame, `write_index` advances modulo 256, and the input
buffer (including both ready flags) and the ring-buffer data region are left
untouched. -/
lemma runInference_step (g : GameState) (hs : g.session.status = STATUS_ACTIVE)
    (h1 : g.inputBuffer.p1Ready = true) (h2 : g.inputBuffer.p2Ready = true) :
    ∃ g1, runInference g = Except.ok g1
      ∧ g1.session.status = g.session.status
      ∧ g1.inputBuffer = g.inputBuffer
      ∧ g1.session.frame = g.session.frame + 1
      ∧ g1.hidden.frame = g.session.frame + 1
      ∧ g1.frameLog.totalFrames = g.session.frame + 1
      ∧ g1.frameLog.writeIndex = (g.frameLog.writeIndex % 256 + 1) % 256
      ∧ g1.frameLog.ringData = g.frameLog.ringData := by
  unfold runInference
  rw [if_pos hs, if_pos (by rw [h1, h2]; rfl)]
  exact ⟨_, rfl, rfl, rfl, rfl, rfl, rfl, rfl, rfl⟩

/-- Iterated form: `n` successive `run_inference` calls from any ready state
all succeed (the ready flags are never cleared), adding `n` to the frame
counter, keeping `total_frames` equal to the frame, advancing `write_index` by
`n` modulo 256, and leaving the ring-buffer data region untouched. -/
lemma runInferenceN_counters (n : Nat) (g : GameState)
    (hs : g.session.status = STATUS_ACTIVE)
    (h1 : g.inputBuffer.p1Ready = true) (h2 : g.inputBuffer.p2Ready = true)
    (hw : g.frameLog.writeIndex < 256)
    (ht : g.frameLog.totalFrames = g.session.frame)
    (hh : g.hidden.frame = g.session.frame) :
    ∃ g1, runInferenceN n g = Except.ok g1
      ∧ g1.session.status = STATUS_ACTIVE
      ∧ g1.inputBuffer = g.inputBuffer
      ∧ g1.session.frame = g.session.frame + n
      ∧ g1.frameLog.totalFrames = g.session.frame + n
      ∧ g1.hidden.frame = g.session.frame + n
      ∧ g1.frameLog.writeIndex = (g.frameLog.writeIndex + n) % 256
      ∧ g1.frameLog.ringData = g.frameLog.ringData := by
  induction n with
  | zero =>
      exact ⟨g, rfl, hs, rfl, rfl, by omega, by omega, by omega, rfl⟩
  | succ n ih =>
      obtain ⟨gn, hgn, hst, hib, hfr, htf, hhf, hwi, hrd⟩ := ih
      obtain ⟨g1, hrun1, hst1, hib1, hfr1, hhf1, htf1, hwi1, hrd1⟩ :=
        runInference_step gn hst (by rw [hib, h1]) (by rw [hib, h2])
      refine ⟨g1, ?_, ?_, ?_, ?_, ?_, ?_, ?_, ?_⟩
      · show Except.bind (runInferenceN n g) runInference = Except.ok g1
        rw [hgn]
        exact hrun1
      · rw [hst1, hst]
      · rw [hib1, hib]
      · omega
      · omega
      · omega
      · omega
      · rw [hrd1, hrd]

/-- C9 (code evaluation): 257 successive `run_inference` calls from the fresh
ready state succeed with `session.frame = 257`, `total_frames = 257`,
`write_index = 1` (wraparound), and the hidden-state frame tag at 257 — but
the ring-buffer data region is bit-for-bit unchanged: the compressed snapshot
is computed and discarded, never appended (the account write is a
commented-out production TODO in the source). -/
theorem ring_buffer_counters_257 :
    ∃ g1, runInferenceN 257 gReady = Except.ok g1
      ∧ g1.session.frame = 257
      ∧ g1.frameLog.totalFrames = 257
      ∧ g1.frameLog.writeIndex = 1
      ∧ g1.hidden.frame = 257
      ∧ g1.frameLog.ringData = gReady.frameLog.ringData := by
  obtain ⟨g1, hrun, hst, hib, hfr, htf, hhf, hwi, hrd⟩ :=
    runInferenceN_counters 257 gReady rfl rfl rfl (by decide) rfl rfl
  refine ⟨g1, hrun, ?_, ?_, ?_, ?_, hrd⟩
  · rw [hfr]; decide
  · rw [htf]; decide
  · rw [hwi]; decide
  · rw [hhf]; decide

end WorldModel
